import Mathlib

/-!
Verification model of the report-summarization core of the grivy repository and
subprocess-execution core:
  * src/grivy/cli/output_handler.py  (report loading, flattening, ranking, digest)
  * src/grivy/tools/trivy_tools.py   (option validation, command construction,
                                      streaming process runner, digest wrapper)

Python strings are modelled as Lean String, Python None/absence as Option,
JSON-dict fields that may be absent, null or present as the Field type,
and wall-clock time as Nat (seconds since spawn), matching the int()
truncation the source applies to elapsed time.
-/

namespace Grivy

/-- Python truthy-or on an optional string: x or d, where None and "" are falsy. -/
def pyStrOr (o : Option String) (d : String) : String :=
  match o with
  | none => d
  | some s => if s = "" then d else s

/-- Python x or y on two optional strings (for title or description). -/
def pyOr (a b : Option String) : Option String :=
  match a with
  | none => b
  | some s => if s = "" then b else some s

/-- Python truthiness of an optional string, as used in genexp filters. -/
def pyTruthy (o : Option String) : Bool :=
  match o with
  | none => false
  | some s => s ≠ ""

/-- Python f-string rendering of an optional string: None prints as "None". -/
def pyShow (o : Option String) : String := o.getD "None"

/-- Python str.upper restricted to the ASCII range, as Char.toUpper per character. -/
def pyUpper (s : String) : String := ⟨s.data.map Char.toUpper⟩

/-- A JSON-dict field that can be absent, explicitly null, or carry a value. -/
inductive Field (α : Type) where
  | absent
  | null
  | val (a : α)

/-- entry.get(key, []) or [] — absent and null both collapse to the empty list. -/
def fieldList {α : Type} (f : Field (List α)) : List α :=
  match f with
  | .absent => []
  | .null => []
  | .val xs => xs

/-- The fields of a Vulnerabilities entry read by _collect_items. -/
structure Vuln where
  vulnerabilityID : Option String
  title : Option String
  description : Option String
  severity : Option String
  pkgName : Option String

/-- The fields of a Misconfigurations entry read by _collect_items. -/
structure Misconf where
  mid : Option String
  title : Option String
  description : Option String
  severity : Option String
  target : Option String

/-- One element of the Results sequence of the report. -/
structure ResultEntry where
  vulnerabilities : Field (List Vuln)
  misconfigurations : Field (List Misconf)

/-- The loaded report document; only Results is read by the summarizer. -/
structure Report where
  results : Field (List ResultEntry)

/-- The uniform finding dict built by _collect_items
    (keys id, title, severity, pkg, type). -/
structure Item where
  id : Option String
  title : Option String
  severity : Option String
  pkg : Option String
  kind : String
deriving DecidableEq

def SEVERITY_ORDER : List String := ["CRITICAL", "HIGH", "MEDIUM", "LOW", "UNKNOWN"]

/-- _severity_rank: SEVERITY_ORDER.index(sev.upper()), with the exception
    branch returning len(SEVERITY_ORDER); List.indexOf returns the length
    when the element is absent, which is exactly that composite behavior. -/
def severity_rank (sev : String) : Nat :=
  SEVERITY_ORDER.indexOf (pyUpper sev)

/-- The item appended for one vulnerability entry. -/
def vulnItem (v : Vuln) : Item :=
  { id := v.vulnerabilityID
    title := pyOr v.title v.description
    severity := v.severity
    pkg := v.pkgName
    kind := "vuln" }

/-- The item appended for one misconfiguration entry. -/
def misItem (m : Misconf) : Item :=
  { id := m.mid
    title := pyOr m.title m.description
    severity := m.severity
    pkg := m.target
    kind := "misconfig" }

/-- _collect_items: per entry, one item per vulnerability then one per
    misconfiguration, entries in document order. -/
def collect_items : List ResultEntry → List Item
  | [] => []
  | entry :: rest =>
      ((fieldList entry.vulnerabilities).map vulnItem
        ++ (fieldList entry.misconfigurations).map misItem)
        ++ collect_items rest

/-- (i.get("severity") or "").upper() == "HIGH" -/
def isHighItem (i : Item) : Bool := pyUpper (pyStrOr i.severity "") == "HIGH"

/-- (i.get("severity") or "").upper() == "CRITICAL" -/
def isCriticalItem (i : Item) : Bool := pyUpper (pyStrOr i.severity "") == "CRITICAL"

/-- The sort key of summarize_report: _severity_rank(x.get("severity") or "ZZZ"). -/
def sortKey (i : Item) : Nat := severity_rank (pyStrOr i.severity "ZZZ")

/-- Comparison used to model the stable Python sorted(items, key=sortKey). -/
def itemLE (a b : Item) : Bool := decide (sortKey a ≤ sortKey b)

/-- The dict returned by summarize_report. -/
structure Summary where
  summary_text : String
  high : Nat
  critical : Nat
  top : List Item
  total_findings : Nat

/-- [SEVERITY] ID - TITLE rendering of one top finding. -/
def renderItem (t : Item) : String :=
  "[" ++ pyShow t.severity ++ "] " ++ pyShow t.id ++ " - " ++ pyShow t.title

/-- summarize_report on an already-loaded document (load_report failures are
    modelled separately); Python sorted is a stable sort, embedded as
    List.mergeSort on the severity-rank key. -/
def summarize_report (data : Report) (top_k : Nat) : Summary :=
  let results := fieldList data.results
  let items := collect_items results
  let high := items.countP isHighItem
  let critical := items.countP isCriticalItem
  let sorted_items := items.mergeSort itemLE
  let top_items := sorted_items.take top_k
  let top_brief := top_items.map (fun i =>
    { id := i.id, title := i.title, severity := i.severity,
      pkg := i.pkg, kind := i.kind : Item })
  let summary_text :=
    "扫描完成。High: " ++ toString high ++ ", Critical: " ++ toString critical
      ++ "。 Top " ++ toString top_brief.length ++ " 风险示例: "
      ++ String.intercalate "; "
          ((top_brief.filter (fun t => pyTruthy t.id)).map renderItem)
  { summary_text := summary_text
    high := high
    critical := critical
    top := top_brief
    total_findings := items.length }

/-! ### trivy_tools.py: validation, command construction, process runner -/

/-- _BaseScanInput.validate_format: accepts json | table | sarif, otherwise
    raises ValueError (modelled as the error constructor). -/
inductive ValidationResult where
  | ok (v : String)
  | error
deriving DecidableEq

def validate_format (v : String) : ValidationResult :=
  if v = "json" ∨ v = "table" ∨ v = "sarif" then .ok v else .error

/-- _build_output_path: an explicit (truthy) user path wins, otherwise
    data/<prefix>-<timestamp>.json; the timestamp is supplied by the clock. -/
def build_output_path (pre : String) (user_defined : Option String) (timestamp : String) : String :=
  pyStrOr user_defined ("data/" ++ pre ++ "-" ++ timestamp ++ ".json")

/-- The observable behavior of a spawned child process: the elapsed times at
    which each output line is read, the elapsed time at which its combined
    output stream reaches EOF, the elapsed time at which the process exits,
    and its exit code. -/
structure Child where
  lines : List Nat
  eofTime : Nat
  exitTime : Nat
  exitCode : Int

/-- What the caller of _stream_run observes: the returned code, the total
    wall-clock time the call blocked, and whether the child was killed. -/
structure RunResult where
  code : Int
  blockedUntil : Nat
  killed : Bool
deriving DecidableEq

/-- The in-loop deadline test: if timeout and (elapsed > timeout). -/
def timeoutHit (timeout t : Nat) : Bool :=
  decide (timeout ≠ 0) && decide (timeout < t)

/-- _stream_run: Popen raising FileNotFoundError is the none case (returns
    -127, nothing blocked). Otherwise the for-line loop blocks until each
    line arrives and checks the deadline only after printing it; if the
    deadline test fires at a line the child is killed and -1 returned. If
    the loop drains to EOF, proc.wait runs with budget
    max(1, timeout - int(elapsed)); if the child exits within that budget
    its exit code is returned, otherwise it is killed and -1 returned. -/
def stream_run (spawn : Option Child) (timeout : Nat) : RunResult :=
  match spawn with
  | none => { code := -127, blockedUntil := 0, killed := false }
  | some c =>
    match c.lines.find? (fun t => timeoutHit timeout t) with
    | some t => { code := -1, blockedUntil := t, killed := true }
    | none =>
      let e := c.eofTime
      let budget := max 1 (timeout - e)
      if c.exitTime ≤ e + budget then
        { code := c.exitCode, blockedUntil := max e c.exitTime, killed := false }
      else
        { code := -1, blockedUntil := e + budget, killed := true }

/-- The state of the report file when _summarize runs. -/
inductive ReportFile where
  | missing
  | malformed
  | parsed (r : Report)

/-- load_report: open + json.load; a missing path raises FileNotFoundError
    and malformed content raises JSONDecodeError (both the error case). -/
def load_report (file : ReportFile) : Except Unit Report :=
  match file with
  | .missing => .error ()
  | .malformed => .error ()
  | .parsed r => .ok r

/-- What the caller of _summarize observes: either the returned dict (summary
    text, optional counts, the report path) or a propagated exception. -/
inductive SummarizeOutcome where
  | digest (summary : String) (high critical : Option Nat)
      (top : Option (List Item)) (total_findings : Option Nat)
      (report_path : String)
  | raised

/-- _summarize: a missing file short-circuits to the placeholder dict; an
    existing file goes through summarize_report (top_k defaulting to 5),
    whose json.load raises on malformed content — _summarize has no
    handler, so that exception propagates. -/
def tool_summarize (report_path : String) (file : ReportFile) : SummarizeOutcome :=
  match file with
  | .missing => .digest "报告文件不存在，无法解析" none none none none report_path
  | .malformed => .raised
  | .parsed r =>
      let s := summarize_report r 5
      .digest s.summary_text (some s.high) (some s.critical)
        (some s.top) (some s.total_findings) report_path

/-- What a scan tool invocation produces: the command line handed to
    _stream_run, the runner outcome, and the summarization outcome. -/
structure ToolResult where
  cmd : List String
  run : RunResult
  summary : SummarizeOutcome

/-- trivy_image_scan: builds the command with no validation of format and
    hands it to _stream_run; the world supplies the spawn behavior per
    command and the state of the report file at summarize time. -/
def trivy_image_scan (image severity : String) (ignore_unfixed : Bool)
    (format : String) (timeout : Nat) (output_path : Option String)
    (timestamp : String) (spawn : List String → Option Child)
    (file : ReportFile) : ToolResult :=
  let report_path := build_output_path "image" output_path timestamp
  let cmd := ["trivy", "image", "--severity", severity, "--format", format,
              "--output", report_path]
  let cmd := if ignore_unfixed then cmd ++ ["--ignore-unfixed"] else cmd
  let cmd := cmd ++ [image]
  { cmd := cmd
    run := stream_run (spawn cmd) timeout
    summary := tool_summarize report_path file }

/-- trivy_fs_scan, identical shape with the fs subcommand. -/
def trivy_fs_scan (path severity : String) (ignore_unfixed : Bool)
    (format : String) (timeout : Nat) (output_path : Option String)
    (timestamp : String) (spawn : List String → Option Child)
    (file : ReportFile) : ToolResult :=
  let report_path := build_output_path "fs" output_path timestamp
  let cmd := ["trivy", "fs", "--severity", severity, "--format", format,
              "--output", report_path]
  let cmd := if ignore_unfixed then cmd ++ ["--ignore-unfixed"] else cmd
  let cmd := cmd ++ [path]
  { cmd := cmd
    run := stream_run (spawn cmd) timeout
    summary := tool_summarize report_path file }

/-- trivy_repo_scan, identical shape with the repo subcommand. -/
def trivy_repo_scan (repo_url_or_path severity : String) (ignore_unfixed : Bool)
    (format : String) (timeout : Nat) (output_path : Option String)
    (timestamp : String) (spawn : List String → Option Child)
    (file : ReportFile) : ToolResult :=
  let report_path := build_output_path "repo" output_path timestamp
  let cmd := ["trivy", "repo", "--severity", severity, "--format", format,
              "--output", report_path]
  let cmd := if ignore_unfixed then cmd ++ ["--ignore-unfixed"] else cmd
  let cmd := cmd ++ [repo_url_or_path]
  { cmd := cmd
    run := stream_run (spawn cmd) timeout
    summary := tool_summarize report_path file }

/-- trivy_sbom_scan: the SBOM path goes through --input right after the
    subcommand and no trailing positional target is appended. -/
def trivy_sbom_scan (sbom_path severity : String) (ignore_unfixed : Bool)
    (format : String) (timeout : Nat) (output_path : Option String)
    (timestamp : String) (spawn : List String → Option Child)
    (file : ReportFile) : ToolResult :=
  let report_path := build_output_path "sbom" output_path timestamp
  let cmd := ["trivy", "sbom", "--input", sbom_path, "--severity", severity,
              "--format", format, "--output", report_path]
  let cmd := if ignore_unfixed then cmd ++ ["--ignore-unfixed"] else cmd
  { cmd := cmd
    run := stream_run (spawn cmd) timeout
    summary := tool_summarize report_path file }

/-! ### Claims -/

/-- C2 (counterexample): for a report file that exists but holds malformed
    JSON, _summarize does not return a digest — the JSONDecodeError from
    json.load propagates to the caller, refuting the claim that a missing
    or malformed report always yields a placeholder digest with no
    exception. -/
theorem tool_summarize_malformed_raises :
    tool_summarize "data/report.json" ReportFile.malformed = SummarizeOutcome.raised := rfl

/-- C2 (amended): for every report path, a missing report file yields the
    placeholder digest carrying the descriptive summary text and the report
    path with all counts absent, and no exception propagates; but when the
    file exists with malformed content the parse error propagates to the
    caller. -/
theorem tool_summarize_missing_placeholder (p : String) :
    tool_summarize p ReportFile.missing
      = SummarizeOutcome.digest "报告文件不存在，无法解析" none none none none p ∧
    tool_summarize p ReportFile.malformed = SummarizeOutcome.raised :=
  ⟨rfl, rfl⟩

/-- C8: command construction is deterministic per target kind: image, fs
    and repo commands are the base subcommand, --severity, --format,
    --output, the optional --ignore-unfixed flag, with the target token
    appended last; the sbom command passes the SBOM path via --input right
    after the subcommand and appends no trailing positional target (its
    last token is --ignore-unfixed or the output path). -/
theorem scan_command_shape (sev fmt ts tgt : String) (iu : Bool) (tmo : Nat)
    (op : Option String) (spawn : List String → Option Child) (file : ReportFile) :
    (trivy_image_scan tgt sev iu fmt tmo op ts spawn file).cmd
      = ["trivy", "image", "--severity", sev, "--format", fmt, "--output",
          build_output_path "image" op ts]
        ++ (if iu then ["--ignore-unfixed"] else []) ++ [tgt] ∧
    (trivy_image_scan tgt sev iu fmt tmo op ts spawn file).cmd.getLast? = some tgt ∧
    (trivy_fs_scan tgt sev iu fmt tmo op ts spawn file).cmd
      = ["trivy", "fs", "--severity", sev, "--format", fmt, "--output",
          build_output_path "fs" op ts]
        ++ (if iu then ["--ignore-unfixed"] else []) ++ [tgt] ∧
    (trivy_fs_scan tgt sev iu fmt tmo op ts spawn file).cmd.getLast? = some tgt ∧
    (trivy_repo_scan tgt sev iu fmt tmo op ts spawn file).cmd
      = ["trivy", "repo", "--severity", sev, "--format", fmt, "--output",
          build_output_path "repo" op ts]
        ++ (if iu then ["--ignore-unfixed"] else []) ++ [tgt] ∧
    (trivy_repo_scan tgt sev iu fmt tmo op ts spawn file).cmd.getLast? = some tgt ∧
    (trivy_sbom_scan tgt sev iu fmt tmo op ts spawn file).cmd
      = ["trivy", "sbom", "--input", tgt, "--severity", sev, "--format", fmt,
          "--output", build_output_path "sbom" op ts]
        ++ (if iu then ["--ignore-unfixed"] else []) ∧
    (trivy_sbom_scan tgt sev iu fmt tmo op ts spawn file).cmd.getLast?
      = some (if iu then "--ignore-unfixed" else build_output_path "sbom" op ts) := by
  cases iu <;>
    simp [trivy_image_scan, trivy_fs_scan, trivy_repo_scan, trivy_sbom_scan,
      List.getLast?_concat]

/-- C10: a report whose Results key is absent or null summarizes exactly as
    the empty Results list (zero findings, no error), and a result entry
    whose Vulnerabilities or Misconfigurations field is explicitly null
    contributes the same findings as one carrying an empty list. -/
theorem null_sequences_as_empty (k : Nat) (rest : List ResultEntry)
    (vf : Field (List Vuln)) (mf : Field (List Misconf)) :
    summarize_report { results := Field.null } k
      = summarize_report { results := Field.val [] } k ∧
    summarize_report { results := Field.absent } k
      = summarize_report { results := Field.val [] } k ∧
    (summarize_report { results := Field.null } k).total_findings = 0 ∧
    (summarize_report { results := Field.absent } k).top = [] ∧
    collect_items ({ vulnerabilities := Field.null, misconfigurations := mf } :: rest)
      = collect_items ({ vulnerabilities := Field.val [], misconfigurations := mf } :: rest) ∧
    collect_items ({ vulnerabilities := vf, misconfigurations := Field.null } :: rest)
      = collect_items ({ vulnerabilities := vf, misconfigurations := Field.val [] } :: rest) :=
  ⟨rfl, rfl, rfl, by simp [summarize_report, fieldList, collect_items], rfl, rfl⟩

/-- C5: _stream_run never raises to its caller (it is a total function into
    RunResult): an executable that does not resolve returns the sentinel
    -127 without killing anything; when the in-loop deadline test fires at
    an output line the child is killed and the sentinel -1 returned; when
    the loop drains and the child outlives the remaining wait budget the
    child is killed and -1 returned; otherwise the exit code of the child is
    returned unchanged. -/
theorem stream_run_outcomes (timeout : Nat) (c : Child) :
    (stream_run none timeout).code = -127 ∧
    (stream_run none timeout).killed = false ∧
    (∀ t, c.lines.find? (fun u => timeoutHit timeout u) = some t →
      stream_run (some c) timeout = { code := -1, blockedUntil := t, killed := true }) ∧
    (c.lines.find? (fun u => timeoutHit timeout u) = none →
      c.eofTime + max 1 (timeout - c.eofTime) < c.exitTime →
      (stream_run (some c) timeout).code = -1 ∧
      (stream_run (some c) timeout).killed = true) ∧
    (c.lines.find? (fun u => timeoutHit timeout u) = none →
      c.exitTime ≤ c.eofTime + max 1 (timeout - c.eofTime) →
      (stream_run (some c) timeout).code = c.exitCode ∧
      (stream_run (some c) timeout).killed = false) := by
  refine ⟨rfl, rfl, ?_, ?_, ?_⟩
  · intro t ht
    simp [stream_run, ht]
  · intro hfind hlate
    simp [stream_run, hfind, Nat.not_le.mpr hlate]
  · intro hfind hin
    simp [stream_run, hfind, hin]

/-- C5 witness: a child whose second line arrives past the 5-second timeout
    is killed during streaming and reported as -1. -/
theorem stream_run_outcomes_witness :
    stream_run (some { lines := [2, 7], eofTime := 8, exitTime := 9, exitCode := 3 }) 5
      = { code := -1, blockedUntil := 7, killed := true } :=
  (stream_run_outcomes 5 { lines := [2, 7], eofTime := 8, exitTime := 9, exitCode := 3 }).2.2.1
    7 (by decide)

/-- C6 (code evaluated at the failing input): with timeout 1 and a child
    that emits no output, keeps its output stream open and exits at t = 5
    (e.g. sleep 5), the line-reading loop blocks until EOF at t = 5 — the
    deadline is only tested after a line arrives — and the subsequent wait
    then finds the child already exited, so _stream_run blocks for 5
    seconds and returns exit code 0 instead of enforcing the deadline and
    returning the timeout sentinel within the budget. -/
theorem silent_child_escapes_deadline :
    stream_run (some { lines := [], eofTime := 5, exitTime := 5, exitCode := 0 }) 1
      = { code := 0, blockedUntil := 5, killed := false } ∧
    ¬ (stream_run (some { lines := [], eofTime := 5, exitTime := 5, exitCode := 0 }) 1).blockedUntil
        ≤ 1 + 2 ∧
    (stream_run (some { lines := [], eofTime := 5, exitTime := 5, exitCode := 0 }) 1).code
      ≠ -1 := by
  decide

/-- C1 (code evaluated at the failing input): validate_format rejects
    "xml", but the scan tools never invoke it — every one of the four
    tools passes format = "xml" straight onto the trivy command line and
    hands that command to _stream_run, which spawns it (here the spawn
    succeeds and the run completes with the exit code of the child), so no
    validation error is raised before spawning. -/
theorem bad_format_reaches_command_line :
    validate_format "xml" = ValidationResult.error ∧
    "xml" ∈ (trivy_image_scan "alpine:3.19" "HIGH,CRITICAL" true "xml" 300 none
        "20250101-000000"
        (fun _ => some { lines := [], eofTime := 0, exitTime := 0, exitCode := 0 })
        ReportFile.missing).cmd ∧
    (trivy_image_scan "alpine:3.19" "HIGH,CRITICAL" true "xml" 300 none
        "20250101-000000"
        (fun _ => some { lines := [], eofTime := 0, exitTime := 0, exitCode := 0 })
        ReportFile.missing).run.code = 0 ∧
    "xml" ∈ (trivy_fs_scan "." "HIGH,CRITICAL" true "xml" 300 none
        "20250101-000000"
        (fun _ => some { lines := [], eofTime := 0, exitTime := 0, exitCode := 0 })
        ReportFile.missing).cmd ∧
    "xml" ∈ (trivy_repo_scan "https://example.com/r.git" "HIGH,CRITICAL" true "xml" 300 none
        "20250101-000000"
        (fun _ => some { lines := [], eofTime := 0, exitTime := 0, exitCode := 0 })
        ReportFile.missing).cmd ∧
    "xml" ∈ (trivy_sbom_scan "sbom.json" "HIGH,CRITICAL" true "xml" 300 none
        "20250101-000000"
        (fun _ => some { lines := [], eofTime := 0, exitTime := 0, exitCode := 0 })
        ReportFile.missing).cmd := by
  refine ⟨rfl, ?_, rfl, ?_, ?_, ?_⟩ <;>
    simp [trivy_image_scan, trivy_fs_scan, trivy_repo_scan, trivy_sbom_scan,
      build_output_path, pyStrOr]

/-- C7: for every document and every topK, totalFindings equals the number
    of flattened findings (independent of topK) and the topFindings
    sequence has length min(topK, totalFindings). -/
theorem summarize_counts (data : Report) (k : Nat) :
    (summarize_report data k).total_findings
      = (collect_items (fieldList data.results)).length ∧
    (summarize_report data k).top.length
      = min k (summarize_report data k).total_findings := by
  refine ⟨rfl, ?_⟩
  simp [summarize_report]

/-- C3: the severity rank function (a total function on strings) depends
    only on the upper-cased label, orders the recognized labels
    CRITICAL < HIGH < MEDIUM < LOW < UNKNOWN, and sends every string whose
    upper-cased form is not one of those five labels (e.g. "" and
    "bogus") to the shared last rank, strictly above UNKNOWN. -/
theorem severity_rank_total_order :
    (∀ s t : String, pyUpper s = pyUpper t → severity_rank s = severity_rank t) ∧
    severity_rank "CRITICAL" < severity_rank "HIGH" ∧
    severity_rank "HIGH" < severity_rank "MEDIUM" ∧
    severity_rank "MEDIUM" < severity_rank "LOW" ∧
    severity_rank "LOW" < severity_rank "UNKNOWN" ∧
    severity_rank "" = SEVERITY_ORDER.length ∧
    severity_rank "bogus" = SEVERITY_ORDER.length ∧
    (∀ s : String, pyUpper s ∉ SEVERITY_ORDER →
      severity_rank "UNKNOWN" < severity_rank s ∧
      severity_rank s = SEVERITY_ORDER.length) := by
  refine ⟨?_, by decide, by decide, by decide, by decide, by decide, by decide, ?_⟩
  · intro s t h
    simp only [severity_rank, h]
  · intro s hs
    have h5 : severity_rank s = SEVERITY_ORDER.length := List.indexOf_eq_length.mpr hs
    refine ⟨?_, h5⟩
    rw [h5]
    decide

/-- C3 witness: case-insensitivity at "Critical" and the last rank at the
    unrecognized string "bogus". -/
theorem severity_rank_total_order_witness :
    severity_rank "Critical" = severity_rank "CRITICAL" ∧
    severity_rank "UNKNOWN" < severity_rank "bogus" :=
  ⟨severity_rank_total_order.1 "Critical" "CRITICAL" (by decide),
   (severity_rank_total_order.2.2.2.2.2.2.2 "bogus" (by decide)).1⟩

/-- An item carrying no severity, used to witness the null-severity claim. -/
def itemNoSev : Item :=
  { id := none, title := none, severity := none, pkg := none, kind := "vuln" }

/-- An item carrying an unrecognized severity string, for the same witness. -/
def itemBogus : Item :=
  { id := some "X", title := none, severity := some "bogus", pkg := none, kind := "vuln" }

/-- C9: findings are flattened and counted one-per-entry regardless of
    severity; a finding whose severity is null/absent counts toward
    neither highCount nor criticalCount (it contributes nothing to either
    countP wherever it sits in the list, while still adding one to the
    length), and its sort key — the rank of the substituted placeholder
    "ZZZ" — is the shared last rank, the same key every finding with an
    unrecognized non-null severity string gets. -/
theorem null_severity_findings (results : List ResultEntry) (it : Item)
    (pre post : List Item) (s : String) :
    (collect_items results).length
      = (results.map (fun e =>
          (fieldList e.vulnerabilities).length
            + (fieldList e.misconfigurations).length)).sum ∧
    (it.severity = none →
      sortKey it = SEVERITY_ORDER.length ∧
      sortKey it = severity_rank "bogus" ∧
      isHighItem it = false ∧
      isCriticalItem it = false ∧
      (pre ++ it :: post).countP isHighItem = (pre ++ post).countP isHighItem ∧
      (pre ++ it :: post).countP isCriticalItem = (pre ++ post).countP isCriticalItem ∧
      (pre ++ it :: post).length = (pre ++ post).length + 1) ∧
    (it.severity = none → pyUpper s ∉ SEVERITY_ORDER → ∀ it2 : Item,
      it2.severity = some s → sortKey it2 = sortKey it) := by
  refine ⟨?_, ?_, ?_⟩
  · induction results with
    | nil => rfl
    | cons e rest ih =>
        simp [collect_items, ih]
        omega
  · intro h
    have hkey : sortKey it = SEVERITY_ORDER.length := by
      simp only [sortKey, h, pyStrOr]
      decide
    have hh : isHighItem it = false := by
      simp only [isHighItem, h, pyStrOr]
      decide
    have hc : isCriticalItem it = false := by
      simp only [isCriticalItem, h, pyStrOr]
      decide
    refine ⟨hkey, by rw [hkey]; decide, hh, hc, ?_, ?_, ?_⟩
    · simp [List.countP_append, List.countP_cons, hh]
    · simp [List.countP_append, List.countP_cons, hc]
    · simp
      omega
  · intro h hs it2 h2
    have hit : sortKey it = SEVERITY_ORDER.length := by
      simp only [sortKey, h, pyStrOr]
      decide
    have hit2 : sortKey it2 = SEVERITY_ORDER.length := by
      simp only [sortKey, h2, pyStrOr]
      by_cases hse : s = ""
      · subst hse
        decide
      · simp only [if_neg hse]
        exact List.indexOf_eq_length.mpr hs
    rw [hit, hit2]

/-- C9 witness: the severity-free item gets the last rank, is not counted
    as HIGH or CRITICAL, and shares its sort key with an item whose
    severity is the unrecognized string "bogus". -/
theorem null_severity_findings_witness :
    sortKey itemNoSev = SEVERITY_ORDER.length ∧
    isHighItem itemNoSev = false ∧
    isCriticalItem itemNoSev = false ∧
    sortKey itemBogus = sortKey itemNoSev :=
  ⟨((null_severity_findings [] itemNoSev [] [] "bogus").2.1 rfl).1,
   ((null_severity_findings [] itemNoSev [] [] "bogus").2.1 rfl).2.2.1,
   ((null_severity_findings [] itemNoSev [] [] "bogus").2.1 rfl).2.2.2.1,
   (null_severity_findings [] itemNoSev [] [] "bogus").2.2 rfl (by decide) itemBogus rfl⟩

/-- Stability of the embedded sort: for each rank value, the sorted list
    restricted to that rank is exactly the input list restricted to that
    rank, in its original order. -/
theorem mergeSort_itemLE_filter_rank (items : List Item) (r : Nat) :
    (items.mergeSort itemLE).filter (fun i => sortKey i == r)
      = items.filter (fun i => sortKey i == r) := by
  have htrans : ∀ a b c : Item, itemLE a b → itemLE b c → itemLE a c := by
    intro a b c hab hbc
    simp only [itemLE, decide_eq_true_eq] at *
    omega
  have htotal : ∀ a b : Item, itemLE a b || itemLE b a := by
    intro a b
    simp only [itemLE, Bool.or_eq_true, decide_eq_true_eq]
    omega
  have hmem : ∀ a ∈ items.filter (fun i => sortKey i == r), sortKey a = r := by
    intro a ha
    simpa using (List.mem_filter.mp ha).2
  have hpw : (items.filter (fun i => sortKey i == r)).Pairwise (fun a b => itemLE a b) := by
    refine List.pairwise_of_forall_mem_list ?_
    intro a ha b hb
    simp [itemLE, hmem a ha, hmem b hb]
  have hs : List.Sublist (items.filter (fun i => sortKey i == r)) (items.mergeSort itemLE) :=
    List.sublist_mergeSort htrans htotal hpw (List.filter_sublist items)
  have hfil := hs.filter (fun i => sortKey i == r)
  rw [List.filter_eq_self.mpr (fun a ha => (List.mem_filter.mp ha).2)] at hfil
  have hlen : ((items.mergeSort itemLE).filter (fun i => sortKey i == r)).length
      = (items.filter (fun i => sortKey i == r)).length :=
    ((items.mergeSort_perm itemLE).filter (fun i => sortKey i == r)).length_eq
  exact (hfil.eq_of_length hlen.symm).symm

/-- C4: the ranking step of summarize_report is a stable sort by severity
    rank: for every document and every rank value, the sorted sequence
    restricted to findings of that rank equals the flattened sequence
    restricted to that rank (equal-rank findings keep their flattening
    order), and topFindings is the k-prefix of that sorted sequence, so
    the same relative order carries over to the truncated list. -/
theorem ranking_stable (data : Report) (k : Nat) (r : Nat) :
    ((collect_items (fieldList data.results)).mergeSort itemLE).filter
        (fun i => sortKey i == r)
      = (collect_items (fieldList data.results)).filter (fun i => sortKey i == r) ∧
    (summarize_report data k).top
      = (((collect_items (fieldList data.results)).mergeSort itemLE).take k).map
          (fun i => { id := i.id, title := i.title, severity := i.severity,
                      pkg := i.pkg, kind := i.kind : Item }) :=
  ⟨mergeSort_itemLE_filter_rank (collect_items (fieldList data.results)) r, rfl⟩

end Grivy
